import Mathlib

/-!
Shallow embedding of the recording core of the `recordi` screen-recorder:
the recorder hook (`src/hooks/useRecorder.ts`), the shared overlay
configuration type (`src/types.ts`) and the interactive drag/resize clamping
of the recording overlay component. Continuous quantities (canvas pixels,
overlay fractions) are modelled as rationals; encoded media segments as lists
of bytes; the composited frame buffer as the list of drawing commands that
produced it.
-/

namespace Recordi

/-- An encoded media segment delivered by the encoder, as raw bytes. -/
abbrev Blob := List Nat

/-- MediaRecorder lifecycle states from the DOM API. -/
inductive MRState
  | inactive
  | recording
  | paused
deriving DecidableEq, Repr

/-- `CameraShape` from `src/types.ts`. -/
inductive CameraShape
  | circle
  | square
  | rect
deriving DecidableEq, Repr

/-- Overlay position as fractions of the frame dimensions (`src/types.ts`). -/
structure Position where
  x : ℚ
  y : ℚ
deriving DecidableEq, Repr

/-- `CameraConfig` from `src/types.ts`. -/
structure CameraConfig where
  size : ℚ
  borderColor : String
  borderWidth : ℚ
  shape : CameraShape
  position : Position
deriving DecidableEq, Repr

/-! ## Geometry model (pure parts of the `draw` callback in `useRecorder.ts`) -/

/-- `camDrawSize` in `draw`: `Math.min(canvas.width, canvas.height) * size`. -/
def overlayPixelSize (cw ch size : ℚ) : ℚ := min cw ch * size

/-- `x` in `draw`: `position.x * canvas.width`. -/
def overlayOriginX (cw posx : ℚ) : ℚ := posx * cw

/-- `y` in `draw`: `position.y * canvas.height`. -/
def overlayOriginY (ch posy : ℚ) : ℚ := posy * ch

/-- Corner radius used by the clip path in `draw`: a circle is drawn as a full
arc of radius `camDrawSize / 2`; otherwise
`shape === 'square' ? camDrawSize * 0.15 : camDrawSize * 0.35`. -/
def cornerRadius : CameraShape → ℚ → ℚ
  | .circle, s => s / 2
  | .square, s => s * (15 / 100)
  | .rect, s => s * (35 / 100)

/-- Result of the center-crop (cover) computation in `draw`. -/
structure CoverFit where
  drawW : ℚ
  drawH : ℚ
  offX : ℚ
  offY : ℚ
deriving DecidableEq, Repr

/-- The cover-fit block of `draw`: starting from
`drawW = drawH = camDrawSize, offX = offY = 0`, if `aspect > 1` set
`drawW = camDrawSize * aspect; offX = -(drawW - camDrawSize) / 2`, else
`drawH = camDrawSize / aspect; offY = -(drawH - camDrawSize) / 2`. -/
def coverFit (vw vh camDrawSize : ℚ) : CoverFit :=
  let aspect := vw / vh
  if 1 < aspect then
    { drawW := camDrawSize * aspect
      drawH := camDrawSize
      offX := -(camDrawSize * aspect - camDrawSize) / 2
      offY := 0 }
  else
    { drawW := camDrawSize
      drawH := camDrawSize / aspect
      offX := 0
      offY := -(camDrawSize / aspect - camDrawSize) / 2 }

/-! ## The per-tick draw callback, as the list of canvas commands it issues -/

/-- One canvas command issued by the `draw` callback. -/
inductive DrawOp
  | drawScreen (x y w h : ℚ)
  | fillBlackRect (x y w h : ℚ)
  | pathCircle (cx cy r : ℚ)
  | pathRoundRect (x y w h r : ℚ)
  | pathRect (x y w h : ℚ)
  | setShadow
  | clip
  | drawCamera (x y w h : ℚ)
  | strokeBorder (color : String) (lineWidth : ℚ)
deriving DecidableEq, Repr

/-- Environment read by one compositor tick: readiness of the two hidden
video elements (`readyState >= 2`), the camera's native resolution, whether
the 2D context implements `roundRect`, and the canvas dimensions. -/
structure DrawEnv where
  screenReady : Bool
  camReady : Bool
  vw : ℚ
  vh : ℚ
  hasRoundRect : Bool
  canvasW : ℚ
  canvasH : ℚ
deriving DecidableEq, Repr

/-- The body of the `draw` callback in `startRecording`, as the sequence of
canvas commands of one tick: draw the screen frame full-size when ready,
otherwise fill black; then, only when the camera is ready, build the clip
path for the configured shape, set the shadow, clip, draw the camera with
cover fit, and stroke the doubled-width border when `borderWidth > 0`. -/
def draw (env : DrawEnv) (cfg : CameraConfig) : List DrawOp :=
  let screenOps : List DrawOp :=
    if env.screenReady then
      [DrawOp.drawScreen 0 0 env.canvasW env.canvasH]
    else
      [DrawOp.fillBlackRect 0 0 env.canvasW env.canvasH]
  let camOps : List DrawOp :=
    if env.camReady then
      let camDrawSize := overlayPixelSize env.canvasW env.canvasH cfg.size
      let x := overlayOriginX env.canvasW cfg.position.x
      let y := overlayOriginY env.canvasH cfg.position.y
      let pathOps : List DrawOp :=
        match cfg.shape with
        | .circle =>
            [DrawOp.pathCircle (x + camDrawSize / 2) (y + camDrawSize / 2)
              (camDrawSize / 2)]
        | sh =>
            if env.hasRoundRect then
              [DrawOp.pathRoundRect x y camDrawSize camDrawSize
                (cornerRadius sh camDrawSize)]
            else
              [DrawOp.pathRect x y camDrawSize camDrawSize]
      let cf := coverFit env.vw env.vh camDrawSize
      let borderOps : List DrawOp :=
        if 0 < cfg.borderWidth then
          [DrawOp.strokeBorder cfg.borderColor (cfg.borderWidth * 2)]
        else
          []
      pathOps ++ [DrawOp.setShadow, DrawOp.clip,
        DrawOp.drawCamera (x + cf.offX) (y + cf.offY) cf.drawW cf.drawH] ++
        borderOps
    else
      []
  screenOps ++ camOps

/-- The composited frame buffer, represented by the drawing commands of the
tick that last rendered it. -/
abbrev Frame := List DrawOp

/-! ## Recorder session state (`useRecorder.ts`) -/

/-- The resources acquired by `startRecording`: the two hidden video
elements, the raw screen capture stream returned by `getDisplayMedia`, the
raw camera/microphone capture stream returned by `getUserMedia`, the
combined canvas+destination stream stored in `streamRef`, the audio
context, and the scheduled animation frame. `true` means the resource is
currently live/held. -/
structure Resources where
  screenVid : Bool
  camVid : Bool
  screenStream : Bool
  camStream : Bool
  stream : Bool
  audioCtx : Bool
  animFrame : Bool
deriving DecidableEq, Repr

/-- `cleanup` in `useRecorder.ts`: detach and remove the video elements,
stop all tracks of `streamRef.current` (the combined canvas+destination
stream only), close the audio context, cancel the animation frame.
Already-null refs are skipped. The raw screen and camera capture streams
are held in local variables of `startRecording`, not in any ref `cleanup`
touches, and their tracks are never stopped anywhere in the hook — setting
`srcObject = null` on the video elements does not stop them — so they stay
live across `cleanup`. -/
def cleanup (r : Resources) : Resources :=
  { r with
    screenVid := false
    camVid := false
    stream := false
    audioCtx := false
    animFrame := false }

/-- State owned by the `useRecorder` hook: the React state values, the chunk
list ref, the media recorder ref (`none` when never created), the acquired
resources, and the canvas frame buffer. -/
structure RecorderState where
  isRecording : Bool
  isPaused : Bool
  elapsedTime : Nat
  error : Option String
  chunks : List Blob
  recorder : Option MRState
  resources : Resources
  canvas : Frame
deriving DecidableEq, Repr

/-- The artifact assembled by the `recorder.onstop` handler
(`RecordingData` in `src/types.ts`, minus the object URL which is derived
from the blob). -/
structure RecordingData where
  blob : Blob
  thumbnail : Frame
deriving DecidableEq, Repr

/-- `recorder.ondataavailable`: `if (e.data.size > 0) chunksRef.current.push(e.data)`. -/
def ondataavailable (st : RecorderState) (b : Blob) : RecorderState :=
  if 0 < b.length then { st with chunks := st.chunks ++ [b] } else st

/-- One firing of the encoder's delivery cadence (`recorder.start(1000)`):
MediaRecorder emits a segment only while in the `recording` state — while
paused or inactive no bitstream is produced. -/
def encoderTick (st : RecorderState) (b : Blob) : RecorderState :=
  match st.recorder with
  | some MRState.recording => ondataavailable st b
  | _ => st

/-- One firing of the 1-second interval of the timer effect:
`if (isRecording && !isPaused)` the interval is active and increments
`elapsedTime`, otherwise no interval runs. -/
def timerTick (st : RecorderState) : RecorderState :=
  if st.isRecording && !st.isPaused then
    { st with elapsedTime := st.elapsedTime + 1 }
  else
    st

/-- `togglePause`: no-op when the recorder ref is null or inactive; from
`recording` call `pause()` and set `isPaused`; from `paused` call `resume()`
and clear `isPaused`. -/
def togglePause (st : RecorderState) : RecorderState :=
  match st.recorder with
  | none => st
  | some MRState.inactive => st
  | some MRState.recording =>
      { st with recorder := some MRState.paused, isPaused := true }
  | some MRState.paused =>
      { st with recorder := some MRState.recording, isPaused := false }

/-- `recorder.onstop`: run `cleanup`, assemble
`new Blob(chunksRef.current)` by concatenating the accumulated segments,
snapshot the canvas as the thumbnail, and hand the artifact to `onStop`. -/
def onstopHandler (st : RecorderState) : RecorderState × RecordingData :=
  ({ st with resources := cleanup st.resources },
   { blob := st.chunks.flatten, thumbnail := st.canvas })

/-- `stopRecording`: no-op unless the recorder exists and is not inactive;
otherwise `recorder.stop()` makes the recorder inactive, clears
`isRecording`/`isPaused`, flushes the encoder's buffered tail segments
through `ondataavailable`, and then fires `onstop`, which assembles the
artifact. `tail` is the list of segments still buffered in the encoder at
the moment of the stop call. -/
def stopRecording (st : RecorderState) (tail : List Blob) :
    RecorderState × Option RecordingData :=
  match st.recorder with
  | none => (st, none)
  | some MRState.inactive => (st, none)
  | some _ =>
      let st1 := { st with
        isRecording := false
        isPaused := false
        recorder := some MRState.inactive }
      let st2 := tail.foldl ondataavailable st1
      let fin := onstopHandler st2
      (fin.1, some fin.2)

/-- The `onended` handler installed on the screen video track: external
termination of screen sharing simply calls `stopRecording()`. -/
def screenOnEnded (st : RecorderState) (tail : List Blob) :
    RecorderState × Option RecordingData :=
  stopRecording st tail

/-- One `requestAnimationFrame` callback of the compositor loop: the `draw`
callback returns early when the context or either hidden video ref is gone
(after cleanup); otherwise it re-renders the canvas from the current config
regardless of the pause state. -/
def drawTick (env : DrawEnv) (cfg : CameraConfig) (st : RecorderState) :
    RecorderState :=
  if st.resources.screenVid && st.resources.camVid then
    { st with canvas := draw env cfg }
  else
    st

/-! ## startRecording -/

/-- The descending container/codec preference list in `getSupportedMimeType`. -/
def mimeTypes : List String :=
  ["video/webm;codecs=vp9,opus",
   "video/webm;codecs=vp8,opus",
   "video/webm",
   "video/mp4"]

/-- `getSupportedMimeType`: the first preference accepted by
`MediaRecorder.isTypeSupported`, or the empty string when none is. -/
def getSupportedMimeType (isTypeSupported : String → Bool) : String :=
  (mimeTypes.find? isTypeSupported).getD ""

/-- The environment `startRecording` runs against: the platform's codec
support predicate, the outcomes of the two capture-source requests (an
error message when the user declines or no device exists), and whether the
canvas ref is initialized. -/
structure StartEnv where
  isTypeSupported : String → Bool
  screenResult : Except String Unit
  cameraResult : Except String Unit
  canvasReady : Bool

/-- `setError(err.message || "Failed to start recording")`. -/
def surfacedError (msg : String) : String :=
  if msg = "" then "Failed to start recording" else msg

/-- `startRecording`: first reset `error`, `elapsedTime`, `chunks` and
`isPaused`; then, inside the try block, create and attach the two hidden
video elements, request the screen stream (`getDisplayMedia`), request the
camera/microphone stream (`getUserMedia`), check the canvas ref, start the
draw loop, build the audio mixing graph and the combined stream, pick the
mime type (throwing `"No supported video MIME type found"` when none is
supported), and start the MediaRecorder with a 1000 ms timeslice. Any throw
is caught: `cleanup()` runs — releasing the video elements, the combined
stream's tracks, the audio context and the animation frame, but not the raw
capture streams, whose tracks it never stops — the message is surfaced via
`setError`, and the error is rethrown to the caller (who returns the app to
its idle view). -/
def startRecording (env : StartEnv) (st : RecorderState) :
    RecorderState × Except String Unit :=
  let st0 := { st with
    error := none
    elapsedTime := 0
    chunks := []
    isPaused := false }
  let st1 := { st0 with
    resources := { st0.resources with screenVid := true, camVid := true } }
  match env.screenResult with
  | Except.error msg =>
      ({ st1 with resources := cleanup st1.resources,
                  error := some (surfacedError msg) },
       Except.error msg)
  | Except.ok _ =>
      let st2 := { st1 with
        resources := { st1.resources with screenStream := true } }
      match env.cameraResult with
      | Except.error msg =>
          ({ st2 with resources := cleanup st2.resources,
                      error := some (surfacedError msg) },
           Except.error msg)
      | Except.ok _ =>
          let st3 := { st2 with
            resources := { st2.resources with camStream := true } }
          if env.canvasReady then
            let st4 := { st3 with
              resources := { st3.resources with
                animFrame := true, audioCtx := true, stream := true } }
            if getSupportedMimeType env.isTypeSupported = "" then
              let msg := "No supported video MIME type found"
              ({ st4 with resources := cleanup st4.resources,
                          error := some (surfacedError msg) },
               Except.error msg)
            else
              ({ st4 with recorder := some MRState.recording,
                          isRecording := true },
               Except.ok ())
          else
            let msg := "Canvas not initialized"
            ({ st3 with resources := cleanup st3.resources,
                        error := some (surfacedError msg) },
             Except.error msg)

/-! ## Session traces -/

/-- Asynchronous events a live session processes after `startRecording`
returns: an encoder data delivery, a timer interval firing, a pause/resume
toggle, or a stop whose buffered tail was already delivered through
preceding data events. -/
inductive SessEvent
  | data (b : Blob)
  | timer
  | toggle
  | stopEv

/-- Dispatch of one session event to the corresponding handler. -/
def stepEvent (st : RecorderState) : SessEvent → RecorderState
  | SessEvent.data b => ondataavailable st b
  | SessEvent.timer => timerTick st
  | SessEvent.toggle => togglePause st
  | SessEvent.stopEv => (stopRecording st []).1

/-- The encoder payloads delivered during a list of session events, in
delivery order. -/
def deliveredBlobs : List SessEvent → List Blob
  | [] => []
  | SessEvent.data b :: es => b :: deliveredBlobs es
  | _ :: es => deliveredBlobs es

/-! ## Interactive drag/resize clamping (`RecordingOverlay`) -/

/-- The drag branch of `handlePointerMove`: movement is converted to
fractions of the container, and the new position is clamped to
`[0, 1 - boxWidthPct] × [0, 1 - boxHeightPct]` where the box percentages
divide the camera's pixel size by the container dimensions. -/
def dragClamp (initialX initialY deltaX deltaY camPixelSize width height : ℚ) :
    Position :=
  let boxWidthPct := camPixelSize / width
  let boxHeightPct := camPixelSize / height
  { x := max 0 (min (1 - boxWidthPct) (initialX + deltaX))
    y := max 0 (min (1 - boxHeightPct) (initialY + deltaY)) }

/-- The resize branch of `handlePointerMove`: the vertical movement fraction
is added to the initial size and clamped to `[0.1, 0.5]`; the position is
left untouched. -/
def resizeClamp (initialSize delta : ℚ) : ℚ :=
  max (1 / 10) (min (1 / 2) (initialSize + delta))

/-! ## Helper lemmas -/

theorem ondataavailable_chunks (st : RecorderState) (b : Blob) :
    (ondataavailable st b).chunks
      = st.chunks ++ if 0 < b.length then [b] else [] := by
  by_cases hb : 0 < b.length <;> simp [ondataavailable, hb]

theorem ondataavailable_fields (st : RecorderState) (b : Blob) :
    (ondataavailable st b).canvas = st.canvas ∧
    (ondataavailable st b).error = st.error ∧
    (ondataavailable st b).recorder = st.recorder ∧
    (ondataavailable st b).isRecording = st.isRecording ∧
    (ondataavailable st b).isPaused = st.isPaused ∧
    (ondataavailable st b).resources = st.resources ∧
    (ondataavailable st b).elapsedTime = st.elapsedTime := by
  by_cases hb : 0 < b.length <;> simp [ondataavailable, hb]

theorem foldl_ondataavailable_chunks (bs : List Blob) (st : RecorderState) :
    (bs.foldl ondataavailable st).chunks
      = st.chunks ++ bs.filter (fun b => 0 < b.length) := by
  induction bs generalizing st with
  | nil => simp
  | cons b bs ih =>
      rw [List.foldl_cons, ih, ondataavailable_chunks]
      by_cases hb : 0 < b.length <;> simp [hb]

theorem foldl_ondataavailable_canvas (bs : List Blob) (st : RecorderState) :
    (bs.foldl ondataavailable st).canvas = st.canvas := by
  induction bs generalizing st with
  | nil => simp
  | cons b bs ih => rw [List.foldl_cons, ih, (ondataavailable_fields st b).1]

theorem foldl_ondataavailable_error (bs : List Blob) (st : RecorderState) :
    (bs.foldl ondataavailable st).error = st.error := by
  induction bs generalizing st with
  | nil => simp
  | cons b bs ih => rw [List.foldl_cons, ih, (ondataavailable_fields st b).2.1]

theorem foldl_ondataavailable_misc (bs : List Blob) (st : RecorderState) :
    (bs.foldl ondataavailable st).isRecording = st.isRecording ∧
    (bs.foldl ondataavailable st).recorder = st.recorder := by
  induction bs generalizing st with
  | nil => simp
  | cons b bs ih =>
      rw [List.foldl_cons]
      obtain ⟨h1, h2⟩ := ih (ondataavailable st b)
      obtain ⟨_, _, hrec, hirec, _⟩ := ondataavailable_fields st b
      exact ⟨h1.trans hirec, h2.trans hrec⟩

/-! ## Claim theorems -/

/-- C9: from the Idle state (recorder ref still null, or left inactive by a
previous stop) only `start()` changes anything: `togglePause` (pause and
resume) and `stopRecording` are no-ops that leave the whole state — and so
also the error field — unchanged and deliver no artifact. -/
theorem idle_pause_resume_stop_noops (st : RecorderState) (tail : List Blob)
    (h : st.recorder = none ∨ st.recorder = some MRState.inactive) :
    togglePause st = st ∧ stopRecording st tail = (st, none) := by
  rcases h with h | h <;> simp [togglePause, stopRecording, h]

/-- C9 witness: the no-ops evaluated at a concrete idle state. -/
theorem idle_pause_resume_stop_noops_witness :
    togglePause
        { isRecording := false, isPaused := false, elapsedTime := 7,
          error := none, chunks := [[1]], recorder := none,
          resources := ⟨false, false, false, false, false, false, false⟩, canvas := [] }
      = { isRecording := false, isPaused := false, elapsedTime := 7,
          error := none, chunks := [[1]], recorder := none,
          resources := ⟨false, false, false, false, false, false, false⟩, canvas := [] } ∧
    stopRecording
        { isRecording := false, isPaused := false, elapsedTime := 7,
          error := none, chunks := [[1]], recorder := none,
          resources := ⟨false, false, false, false, false, false, false⟩, canvas := [] } [[2]]
      = ({ isRecording := false, isPaused := false, elapsedTime := 7,
           error := none, chunks := [[1]], recorder := none,
           resources := ⟨false, false, false, false, false, false, false⟩, canvas := [] },
         none) :=
  idle_pause_resume_stop_noops _ [[2]] (Or.inl rfl)

/-- C1: when `stop()` finalizes a session whose recorder is active (the
session reached Recording), the artifact's media bytes are the concatenation,
in delivery order, of the accumulated `chunks` followed by the non-empty tail
segments flushed by the encoder's stop event, and the artifact carries a
thumbnail snapshot of the final composited frame buffer; the assembly runs
only after the tail flush, so the tail bytes are included. -/
theorem stop_assembles_chunks_and_thumbnail (st : RecorderState)
    (tail : List Blob) (r : MRState) (hr : st.recorder = some r)
    (hactive : r ≠ MRState.inactive) :
    (stopRecording st tail).2 =
      some { blob := (st.chunks ++ tail.filter (fun b => 0 < b.length)).flatten
             thumbnail := st.canvas } := by
  cases r with
  | inactive => exact absurd rfl hactive
  | recording =>
      simp [stopRecording, hr, onstopHandler, foldl_ondataavailable_chunks,
        foldl_ondataavailable_canvas]
  | paused =>
      simp [stopRecording, hr, onstopHandler, foldl_ondataavailable_chunks,
        foldl_ondataavailable_canvas]

/-- C1 witness: a concrete recording session with one accumulated chunk and
a two-segment tail (one empty, filtered out) assembles the concatenated
bytes and the last rendered frame. -/
theorem stop_assembles_chunks_and_thumbnail_witness :
    (stopRecording
        { isRecording := true, isPaused := false, elapsedTime := 2,
          error := none, chunks := [[1, 2]],
          recorder := some MRState.recording,
          resources := ⟨true, true, true, true, true, true, true⟩,
          canvas := [DrawOp.clip] } [[3], []]).2 =
      some { blob := [1, 2, 3], thumbnail := [DrawOp.clip] } := by
  have h := stop_assembles_chunks_and_thumbnail
    { isRecording := true, isPaused := false, elapsedTime := 2,
      error := none, chunks := [[1, 2]],
      recorder := some MRState.recording,
      resources := ⟨true, true, true, true, true, true, true⟩,
      canvas := [DrawOp.clip] } [[3], []] MRState.recording rfl (by simp)
  simpa using h

theorem timerTick_chunks (st : RecorderState) :
    (timerTick st).chunks = st.chunks := by
  by_cases h : st.isRecording && !st.isPaused <;> simp [timerTick, h]

theorem togglePause_chunks (st : RecorderState) :
    (togglePause st).chunks = st.chunks := by
  rcases hr : st.recorder with _ | r
  · simp [togglePause, hr]
  · cases r <;> simp [togglePause, hr]

theorem stopRecording_nil_chunks (st : RecorderState) :
    ((stopRecording st []).1).chunks = st.chunks := by
  rcases hr : st.recorder with _ | r
  · simp [stopRecording, hr]
  · cases r <;> simp [stopRecording, hr, onstopHandler]

theorem foldl_stepEvent_chunks (evts : List SessEvent) (st : RecorderState) :
    (evts.foldl stepEvent st).chunks
      = st.chunks ++ (deliveredBlobs evts).filter (fun b => 0 < b.length) := by
  induction evts generalizing st with
  | nil => simp [deliveredBlobs]
  | cons e es ih =>
      cases e with
      | data b =>
          rw [List.foldl_cons, ih]
          show (ondataavailable st b).chunks ++ _ = _
          rw [ondataavailable_chunks]
          by_cases hb : 0 < b.length <;> simp [hb, deliveredBlobs]
      | timer =>
          rw [List.foldl_cons, ih]
          show (timerTick st).chunks ++ _ = _
          rw [timerTick_chunks]
          simp [deliveredBlobs]
      | toggle =>
          rw [List.foldl_cons, ih]
          show (togglePause st).chunks ++ _ = _
          rw [togglePause_chunks]
          simp [deliveredBlobs]
      | stopEv =>
          rw [List.foldl_cons, ih]
          show ((stopRecording st []).1).chunks ++ _ = _
          rw [stopRecording_nil_chunks]
          simp [deliveredBlobs]

theorem startRecording_reset (env : StartEnv) (st : RecorderState) :
    (startRecording env st).1.chunks = [] ∧
    (startRecording env st).1.elapsedTime = 0 ∧
    (startRecording env st).1.isPaused = false := by
  cases hs : env.screenResult with
  | error msg => simp [startRecording, hs]
  | ok u =>
      cases hc : env.cameraResult with
      | error msg => simp [startRecording, hs, hc]
      | ok u2 =>
          by_cases hcv : env.canvasReady
          · by_cases hm : getSupportedMimeType env.isTypeSupported = "" <;>
              simp [startRecording, hs, hc, hcv, hm]
          · simp [startRecording, hs, hc, hcv]

/-- C10: `startRecording` clears the chunk list and resets the elapsed timer
and the paused flag before any acquisition (so on every outcome), and from
then on the chunk list contains exactly the non-empty encoder payloads
delivered since that start, in delivery order — zero-size payloads are never
appended, and timer, pause/resume and stop events never alter the list. -/
theorem chunks_track_delivery_since_start (env : StartEnv)
    (st : RecorderState) (evts : List SessEvent) :
    (startRecording env st).1.chunks = [] ∧
    (startRecording env st).1.elapsedTime = 0 ∧
    (startRecording env st).1.isPaused = false ∧
    (evts.foldl stepEvent (startRecording env st).1).chunks
      = (deliveredBlobs evts).filter (fun b => 0 < b.length) := by
  obtain ⟨h1, h2, h3⟩ := startRecording_reset env st
  refine ⟨h1, h2, h3, ?_⟩
  rw [foldl_stepEvent_chunks, h1, List.nil_append]

theorem getSupportedMimeType_none (f : String → Bool)
    (h : ∀ t ∈ mimeTypes, f t = false) :
    getSupportedMimeType f = "" := by
  have : mimeTypes.find? f = none := by
    rw [List.find?_eq_none]
    intro t ht
    simp [h t ht]
  simp [getSupportedMimeType, this]

/-- C4: the code contradicts the claim. Evaluating `startRecording` at the
claim's own failing input — screen and camera both granted, canvas ready,
and a platform whose `MediaRecorder.isTypeSupported` rejects every entry of
the preference list — the session does fail with the no-supported-format
error, stays out of Recording, surfaces the error as data, and `cleanup`
releases the video elements, the combined stream, the audio context and the
animation frame; but the raw screen and camera capture streams acquired by
`getDisplayMedia`/`getUserMedia` remain live, because `cleanup` stops only
`streamRef`'s tracks and nothing in the hook ever stops the capture tracks.
The same leak occurs when `getUserMedia` is denied after the screen grant:
the screen capture stream stays live. So "all partially-opened resources
are released" is false of the program. -/
theorem start_failure_leaks_capture_streams :
    (startRecording
        { isTypeSupported := fun _ => false
          screenResult := Except.ok ()
          cameraResult := Except.ok ()
          canvasReady := true }
        { isRecording := false, isPaused := false, elapsedTime := 0,
          error := none, chunks := [], recorder := none,
          resources := ⟨false, false, false, false, false, false, false⟩,
          canvas := [] }).2
        = Except.error "No supported video MIME type found" ∧
    (startRecording
        { isTypeSupported := fun _ => false
          screenResult := Except.ok ()
          cameraResult := Except.ok ()
          canvasReady := true }
        { isRecording := false, isPaused := false, elapsedTime := 0,
          error := none, chunks := [], recorder := none,
          resources := ⟨false, false, false, false, false, false, false⟩,
          canvas := [] }).1
        = { isRecording := false, isPaused := false, elapsedTime := 0,
            error := some "No supported video MIME type found", chunks := [],
            recorder := none,
            resources :=
              { screenVid := false, camVid := false,
                screenStream := true, camStream := true,
                stream := false, audioCtx := false, animFrame := false },
            canvas := [] } ∧
    (startRecording
        { isTypeSupported := fun t => decide (t = "video/webm")
          screenResult := Except.ok ()
          cameraResult := Except.error "Permission denied"
          canvasReady := true }
        { isRecording := false, isPaused := false, elapsedTime := 0,
          error := none, chunks := [], recorder := none,
          resources := ⟨false, false, false, false, false, false, false⟩,
          canvas := [] }).1.resources
        = { screenVid := false, camVid := false,
            screenStream := true, camStream := false,
            stream := false, audioCtx := false, animFrame := false } := by
  refine ⟨rfl, ?_, rfl⟩
  rfl

/-- C5: on every compositor tick, when the screen source has a decodable
frame the tick starts by drawing it over the whole frame buffer; otherwise
it starts by filling the whole buffer with opaque black; and when the camera
source has no decodable frame the tick consists of that screen step alone —
no camera, border, shadow, clip or placeholder command is issued. -/
theorem draw_screen_branch_and_overlay_skip (env : DrawEnv)
    (cfg : CameraConfig) :
    (env.screenReady = true →
      ∃ rest, draw env cfg
        = DrawOp.drawScreen 0 0 env.canvasW env.canvasH :: rest) ∧
    (env.screenReady = false →
      ∃ rest, draw env cfg
        = DrawOp.fillBlackRect 0 0 env.canvasW env.canvasH :: rest) ∧
    (env.camReady = false →
      draw env cfg
        = if env.screenReady then
            [DrawOp.drawScreen 0 0 env.canvasW env.canvasH]
          else
            [DrawOp.fillBlackRect 0 0 env.canvasW env.canvasH]) := by
  refine ⟨fun h => ?_, fun h => ?_, fun h => ?_⟩ <;>
    simp [draw, h]

/-- C5 witness: a tick with a ready screen source and no camera frame is the
single full-frame screen draw; with neither ready it is the single black
fill. -/
theorem draw_screen_branch_and_overlay_skip_witness :
    draw
        { screenReady := true, camReady := false, vw := 640, vh := 480,
          hasRoundRect := true, canvasW := 1920, canvasH := 1080 }
        { size := 1 / 5, borderColor := "#6366f1", borderWidth := 8,
          shape := CameraShape.circle, position := { x := 1 / 20, y := 7 / 10 } }
      = [DrawOp.drawScreen 0 0 1920 1080] ∧
    draw
        { screenReady := false, camReady := false, vw := 640, vh := 480,
          hasRoundRect := true, canvasW := 1920, canvasH := 1080 }
        { size := 1 / 5, borderColor := "#6366f1", borderWidth := 8,
          shape := CameraShape.circle, position := { x := 1 / 20, y := 7 / 10 } }
      = [DrawOp.fillBlackRect 0 0 1920 1080] := by
  constructor
  · have h := (draw_screen_branch_and_overlay_skip
      { screenReady := true, camReady := false, vw := 640, vh := 480,
        hasRoundRect := true, canvasW := 1920, canvasH := 1080 }
      { size := 1 / 5, borderColor := "#6366f1", borderWidth := 8,
        shape := CameraShape.circle,
        position := { x := 1 / 20, y := 7 / 10 } }).2.2 rfl
    simpa using h
  · have h := (draw_screen_branch_and_overlay_skip
      { screenReady := false, camReady := false, vw := 640, vh := 480,
        hasRoundRect := true, canvasW := 1920, canvasH := 1080 }
      { size := 1 / 5, borderColor := "#6366f1", borderWidth := 8,
        shape := CameraShape.circle,
        position := { x := 1 / 20, y := 7 / 10 } }).2.2 rfl
    simpa using h

/-- C6: for every config and frame, the compositor's overlay pixel size is
`relativeSize` times the minimum frame dimension, the origin is
`(position.x * frameWidth, position.y * frameHeight)`, the corner radius is
`size / 2` for Circle (drawn as a full arc of that radius), `0.15` times the
pixel size for Square and `0.35` times for RoundedRect — hence linear in the
pixel size for Square and RoundedRect — and a camera-ready tick issues
exactly the clip path with that geometry. -/
theorem overlay_geometry (env : DrawEnv) (cfg : CameraConfig) (k s : ℚ)
    (hcam : env.camReady = true) (hrr : env.hasRoundRect = true) :
    overlayPixelSize env.canvasW env.canvasH cfg.size
        = cfg.size * min env.canvasW env.canvasH ∧
    overlayOriginX env.canvasW cfg.position.x = cfg.position.x * env.canvasW ∧
    overlayOriginY env.canvasH cfg.position.y = cfg.position.y * env.canvasH ∧
    cornerRadius CameraShape.circle s = s / 2 ∧
    cornerRadius CameraShape.square s = (15 / 100) * s ∧
    cornerRadius CameraShape.rect s = (35 / 100) * s ∧
    cornerRadius CameraShape.square (k * s)
        = k * cornerRadius CameraShape.square s ∧
    cornerRadius CameraShape.rect (k * s)
        = k * cornerRadius CameraShape.rect s ∧
    (cfg.shape = CameraShape.circle →
      DrawOp.pathCircle
          (overlayOriginX env.canvasW cfg.position.x
            + overlayPixelSize env.canvasW env.canvasH cfg.size / 2)
          (overlayOriginY env.canvasH cfg.position.y
            + overlayPixelSize env.canvasW env.canvasH cfg.size / 2)
          (overlayPixelSize env.canvasW env.canvasH cfg.size / 2)
        ∈ draw env cfg) ∧
    (cfg.shape = CameraShape.square →
      DrawOp.pathRoundRect
          (overlayOriginX env.canvasW cfg.position.x)
          (overlayOriginY env.canvasH cfg.position.y)
          (overlayPixelSize env.canvasW env.canvasH cfg.size)
          (overlayPixelSize env.canvasW env.canvasH cfg.size)
          (cornerRadius CameraShape.square
            (overlayPixelSize env.canvasW env.canvasH cfg.size))
        ∈ draw env cfg) ∧
    (cfg.shape = CameraShape.rect →
      DrawOp.pathRoundRect
          (overlayOriginX env.canvasW cfg.position.x)
          (overlayOriginY env.canvasH cfg.position.y)
          (overlayPixelSize env.canvasW env.canvasH cfg.size)
          (overlayPixelSize env.canvasW env.canvasH cfg.size)
          (cornerRadius CameraShape.rect
            (overlayPixelSize env.canvasW env.canvasH cfg.size))
        ∈ draw env cfg) := by
  refine ⟨by rw [overlayPixelSize, mul_comm], rfl, rfl, rfl,
    by rw [cornerRadius]; ring, by rw [cornerRadius]; ring,
    by rw [cornerRadius, cornerRadius]; ring,
    by rw [cornerRadius, cornerRadius]; ring,
    fun h => ?_, fun h => ?_, fun h => ?_⟩ <;>
    simp [draw, hcam, hrr, h]

/-- C6 witness: geometry of a 20 percent circle overlay at position
`(0.05, 0.7)` on a 1920 by 1080 frame, and radius linearity at concrete
scale 3 and size 50. -/
theorem overlay_geometry_witness :
    overlayPixelSize 1920 1080 (1 / 5) = (1 / 5) * min 1920 1080 ∧
    overlayOriginX 1920 (1 / 20) = (1 / 20) * 1920 ∧
    overlayOriginY 1080 (7 / 10) = (7 / 10) * 1080 ∧
    cornerRadius CameraShape.circle 50 = 50 / 2 ∧
    cornerRadius CameraShape.square 50 = (15 / 100) * 50 ∧
    cornerRadius CameraShape.rect 50 = (35 / 100) * 50 ∧
    cornerRadius CameraShape.square (3 * 50)
        = 3 * cornerRadius CameraShape.square 50 ∧
    cornerRadius CameraShape.rect (3 * 50)
        = 3 * cornerRadius CameraShape.rect 50 ∧
    DrawOp.pathCircle (overlayOriginX 1920 (1 / 20)
        + overlayPixelSize 1920 1080 (1 / 5) / 2)
      (overlayOriginY 1080 (7 / 10)
        + overlayPixelSize 1920 1080 (1 / 5) / 2)
      (overlayPixelSize 1920 1080 (1 / 5) / 2)
      ∈ draw
        { screenReady := true, camReady := true, vw := 640, vh := 480,
          hasRoundRect := true, canvasW := 1920, canvasH := 1080 }
        { size := 1 / 5, borderColor := "#6366f1", borderWidth := 8,
          shape := CameraShape.circle,
          position := { x := 1 / 20, y := 7 / 10 } } := by
  have h := overlay_geometry
    { screenReady := true, camReady := true, vw := 640, vh := 480,
      hasRoundRect := true, canvasW := 1920, canvasH := 1080 }
    { size := 1 / 5, borderColor := "#6366f1", borderWidth := 8,
      shape := CameraShape.circle, position := { x := 1 / 20, y := 7 / 10 } }
    3 50 rfl rfl
  exact ⟨h.1, h.2.1, h.2.2.1, h.2.2.2.1, h.2.2.2.2.1, h.2.2.2.2.2.1,
    h.2.2.2.2.2.2.1, h.2.2.2.2.2.2.2.1, h.2.2.2.2.2.2.2.2.1 rfl⟩

/-- C3: from an active Recording state (recorder recording, not paused),
`togglePause` pauses the recorder so the encoder emits no further bitstream
(`encoderTick` is the identity) and the elapsed timer is frozen
(`timerTick` is the identity), while a compositor tick still re-renders the
canvas exactly as before the pause; toggling again restores the original
state verbatim, so an immediate pause/resume pair leaves `elapsedTime` and
the accumulated chunk sequence unchanged, with no duplicate or dropped
segment at the boundary. -/
theorem pause_resume_roundtrip (st : RecorderState) (b : Blob)
    (env : DrawEnv) (cfg : CameraConfig)
    (hrec : st.recorder = some MRState.recording)
    (hp : st.isPaused = false) :
    (togglePause st).isPaused = true ∧
    (togglePause st).recorder = some MRState.paused ∧
    encoderTick (togglePause st) b = togglePause st ∧
    timerTick (togglePause st) = togglePause st ∧
    (drawTick env cfg (togglePause st)).canvas
        = (drawTick env cfg st).canvas ∧
    (togglePause st).elapsedTime = st.elapsedTime ∧
    (togglePause st).chunks = st.chunks ∧
    togglePause (togglePause st) = st := by
  obtain ⟨ir, ip, et, er, ch, rec, res, cv⟩ := st
  dsimp only at hrec hp
  subst hrec hp
  refine ⟨rfl, rfl, rfl, ?_, ?_, rfl, rfl, ?_⟩
  · simp [timerTick, togglePause]
  · by_cases hres : res.screenVid = true ∧ res.camVid = true <;>
      simp [togglePause, drawTick, hres]
  · simp [togglePause]

/-- C3 witness: the pause/resume round trip evaluated on a concrete
recording session five seconds in. -/
theorem pause_resume_roundtrip_witness :
    (togglePause
        { isRecording := true, isPaused := false, elapsedTime := 5,
          error := none, chunks := [[9]],
          recorder := some MRState.recording,
          resources := ⟨true, true, true, true, true, true, true⟩,
          canvas := [] }).isPaused = true ∧
    (togglePause
        { isRecording := true, isPaused := false, elapsedTime := 5,
          error := none, chunks := [[9]],
          recorder := some MRState.recording,
          resources := ⟨true, true, true, true, true, true, true⟩,
          canvas := [] }).recorder = some MRState.paused ∧
    encoderTick
        (togglePause
          { isRecording := true, isPaused := false, elapsedTime := 5,
            error := none, chunks := [[9]],
            recorder := some MRState.recording,
            resources := ⟨true, true, true, true, true, true, true⟩,
            canvas := [] }) [7]
      = togglePause
          { isRecording := true, isPaused := false, elapsedTime := 5,
            error := none, chunks := [[9]],
            recorder := some MRState.recording,
            resources := ⟨true, true, true, true, true, true, true⟩,
            canvas := [] } ∧
    timerTick
        (togglePause
          { isRecording := true, isPaused := false, elapsedTime := 5,
            error := none, chunks := [[9]],
            recorder := some MRState.recording,
            resources := ⟨true, true, true, true, true, true, true⟩,
            canvas := [] })
      = togglePause
          { isRecording := true, isPaused := false, elapsedTime := 5,
            error := none, chunks := [[9]],
            recorder := some MRState.recording,
            resources := ⟨true, true, true, true, true, true, true⟩,
            canvas := [] } ∧
    (drawTick
        { screenReady := true, camReady := true, vw := 640, vh := 480,
          hasRoundRect := true, canvasW := 1920, canvasH := 1080 }
        { size := 1 / 5, borderColor := "#6366f1", borderWidth := 8,
          shape := CameraShape.circle,
          position := { x := 1 / 20, y := 7 / 10 } }
        (togglePause
          { isRecording := true, isPaused := false, elapsedTime := 5,
            error := none, chunks := [[9]],
            recorder := some MRState.recording,
            resources := ⟨true, true, true, true, true, true, true⟩,
            canvas := [] })).canvas
      = (drawTick
          { screenReady := true, camReady := true, vw := 640, vh := 480,
            hasRoundRect := true, canvasW := 1920, canvasH := 1080 }
          { size := 1 / 5, borderColor := "#6366f1", borderWidth := 8,
            shape := CameraShape.circle,
            position := { x := 1 / 20, y := 7 / 10 } }
          { isRecording := true, isPaused := false, elapsedTime := 5,
            error := none, chunks := [[9]],
            recorder := some MRState.recording,
            resources := ⟨true, true, true, true, true, true, true⟩,
            canvas := [] }).canvas ∧
    (togglePause
        { isRecording := true, isPaused := false, elapsedTime := 5,
          error := none, chunks := [[9]],
          recorder := some MRState.recording,
          resources := ⟨true, true, true, true, true, true, true⟩,
          canvas := [] }).elapsedTime = 5 ∧
    (togglePause
        { isRecording := true, isPaused := false, elapsedTime := 5,
          error := none, chunks := [[9]],
          recorder := some MRState.recording,
          resources := ⟨true, true, true, true, true, true, true⟩,
          canvas := [] }).chunks = [[9]] ∧
    togglePause
        (togglePause
          { isRecording := true, isPaused := false, elapsedTime := 5,
            error := none, chunks := [[9]],
            recorder := some MRState.recording,
            resources := ⟨true, true, true, true, true, true, true⟩,
            canvas := [] })
      = { isRecording := true, isPaused := false, elapsedTime := 5,
          error := none, chunks := [[9]],
          recorder := some MRState.recording,
          resources := ⟨true, true, true, true, true, true, true⟩,
          canvas := [] } :=
  pause_resume_roundtrip
    { isRecording := true, isPaused := false, elapsedTime := 5,
      error := none, chunks := [[9]],
      recorder := some MRState.recording,
      resources := ⟨true, true, true, true, true, true, true⟩, canvas := [] }
    [7]
    { screenReady := true, camReady := true, vw := 640, vh := 480,
      hasRoundRect := true, canvasW := 1920, canvasH := 1080 }
    { size := 1 / 5, borderColor := "#6366f1", borderWidth := 8,
      shape := CameraShape.circle, position := { x := 1 / 20, y := 7 / 10 } }
    rfl rfl

/-- C7: for every camera source with positive width and height and every
nonnegative box size, the cover-fit computation returns draw dimensions at
least the box size in both axes (no letterboxing) and offsets centering the
cropped excess; when the aspect ratio exceeds 1 the width is scaled to
`boxSize * aspect` with the height kept at `boxSize`, otherwise the height
is scaled to `boxSize / aspect` with the width kept; and the computation is
idempotent when the aspect ratio is unchanged, i.e. re-running it on its own
draw dimensions yields the same result. -/
theorem coverFit_covers_and_idempotent (vw vh s : ℚ)
    (hw : 0 < vw) (hh : 0 < vh) (hs : 0 ≤ s) :
    s ≤ (coverFit vw vh s).drawW ∧
    s ≤ (coverFit vw vh s).drawH ∧
    (coverFit vw vh s).offX = -((coverFit vw vh s).drawW - s) / 2 ∧
    (coverFit vw vh s).offY = -((coverFit vw vh s).drawH - s) / 2 ∧
    (1 < vw / vh →
      (coverFit vw vh s).drawW = s * (vw / vh) ∧
      (coverFit vw vh s).drawH = s) ∧
    (¬ 1 < vw / vh →
      (coverFit vw vh s).drawH = s / (vw / vh) ∧
      (coverFit vw vh s).drawW = s) ∧
    coverFit (coverFit vw vh s).drawW (coverFit vw vh s).drawH s
      = coverFit vw vh s := by
  have ha : 0 < vw / vh := div_pos hw hh
  by_cases h1 : 1 < vw / vh
  · simp only [coverFit, if_pos h1]
    refine ⟨?_, ?_, ?_, ?_, ?_, ?_, ?_⟩
    · nlinarith
    · exact le_refl s
    · trivial
    · ring
    · intro _
      exact ⟨by trivial, by trivial⟩
    · intro h
      exact absurd h1 h
    · by_cases hs0 : s = 0
      · subst hs0
        simp
      · have hkey : s * (vw / vh) / s = vw / vh :=
          mul_div_cancel_left₀ (vw / vh) hs0
        rw [hkey, if_pos h1]
  · simp only [coverFit, if_neg h1]
    refine ⟨?_, ?_, ?_, ?_, ?_, ?_, ?_⟩
    · exact le_refl s
    · rw [le_div_iff₀ ha]
      nlinarith [not_lt.mp h1]
    · ring
    · trivial
    · intro h
      exact absurd h h1
    · intro _
      exact ⟨by trivial, by trivial⟩
    · by_cases hs0 : s = 0
      · subst hs0
        simp
      · have hkey : s / (s / (vw / vh)) = vw / vh := by
          rw [div_div_eq_mul_div, mul_comm, mul_div_assoc,
            div_self hs0, mul_one]
        rw [hkey, if_neg h1]

/-- C7 witness: cover fit of a 640 by 480 landscape camera into a 216-pixel
box, evaluated through the theorem at those concrete dimensions. -/
theorem coverFit_covers_and_idempotent_witness :
    (216 : ℚ) ≤ (coverFit 640 480 216).drawW ∧
    (216 : ℚ) ≤ (coverFit 640 480 216).drawH ∧
    (coverFit 640 480 216).offX = -((coverFit 640 480 216).drawW - 216) / 2 ∧
    (coverFit 640 480 216).offY = -((coverFit 640 480 216).drawH - 216) / 2 ∧
    (coverFit 640 480 216).drawW = 216 * ((640 : ℚ) / 480) ∧
    (coverFit 640 480 216).drawH = 216 ∧
    coverFit (coverFit 640 480 216).drawW (coverFit 640 480 216).drawH 216
      = coverFit 640 480 216 := by
  have h := coverFit_covers_and_idempotent 640 480 216 (by norm_num)
    (by norm_num) (by norm_num)
  exact ⟨h.1, h.2.1, h.2.2.1, h.2.2.2.1,
    (h.2.2.2.2.1 (by norm_num)).1, (h.2.2.2.2.1 (by norm_num)).2,
    h.2.2.2.2.2.2⟩

/-- C2 counterexample: the screen track's `onended` handler does not yield a
non-empty artifact from every session state. Before the recorder is created
(recorder ref null, e.g. sharing ended during startup) the handler is a
no-op that delivers no artifact at all, and from a Recording state in which
no segment has been delivered yet the assembled artifact has zero media
bytes. -/
theorem screen_ended_not_always_nonempty_cex :
    (screenOnEnded
        { isRecording := false, isPaused := false, elapsedTime := 0,
          error := none, chunks := [], recorder := none,
          resources := ⟨true, true, true, false, false, false, false⟩,
          canvas := [] } []).2 = none ∧
    (screenOnEnded
        { isRecording := true, isPaused := false, elapsedTime := 0,
          error := none, chunks := [],
          recorder := some MRState.recording,
          resources := ⟨true, true, true, true, true, true, true⟩,
          canvas := [] } []).2
      = some { blob := [], thumbnail := [] } := by
  constructor
  · rfl
  · rfl

/-- C2 (amended): from any state in which the recorder is active (Recording
or Paused), external termination of the screen source triggers an implicit
stop: no error is recorded, the session leaves Recording, and the artifact
assembling all accumulated segments plus the flushed tail is delivered to
the caller; the artifact is non-empty whenever at least one non-empty
segment was accumulated. When the recorder is inactive or not yet created
the handler is a no-op and no artifact is delivered. -/
theorem screen_ended_stops_active_session (st : RecorderState)
    (tail : List Blob) (r : MRState) (hr : st.recorder = some r)
    (hactive : r ≠ MRState.inactive) :
    (screenOnEnded st tail).1.error = st.error ∧
    (screenOnEnded st tail).1.isRecording = false ∧
    (screenOnEnded st tail).1.recorder = some MRState.inactive ∧
    (screenOnEnded st tail).2 =
      some { blob := (st.chunks ++ tail.filter (fun b => 0 < b.length)).flatten
             thumbnail := st.canvas } ∧
    ((∃ b ∈ st.chunks, b ≠ []) →
      ∀ d, (screenOnEnded st tail).2 = some d → d.blob ≠ []) := by
  have hart : (screenOnEnded st tail).2 =
      some { blob := (st.chunks ++ tail.filter (fun b => 0 < b.length)).flatten
             thumbnail := st.canvas } := by
    cases r with
    | inactive => exact absurd rfl hactive
    | recording =>
        simp [screenOnEnded, stopRecording, hr, onstopHandler,
          foldl_ondataavailable_chunks, foldl_ondataavailable_canvas]
    | paused =>
        simp [screenOnEnded, stopRecording, hr, onstopHandler,
          foldl_ondataavailable_chunks, foldl_ondataavailable_canvas]
  have hstate : (screenOnEnded st tail).1.error = st.error ∧
      (screenOnEnded st tail).1.isRecording = false ∧
      (screenOnEnded st tail).1.recorder = some MRState.inactive := by
    cases r with
    | inactive => exact absurd rfl hactive
    | recording =>
        refine ⟨?_, ?_, ?_⟩ <;>
          simp [screenOnEnded, stopRecording, hr, onstopHandler,
            foldl_ondataavailable_error, foldl_ondataavailable_misc]
    | paused =>
        refine ⟨?_, ?_, ?_⟩ <;>
          simp [screenOnEnded, stopRecording, hr, onstopHandler,
            foldl_ondataavailable_error, foldl_ondataavailable_misc]
  refine ⟨hstate.1, hstate.2.1, hstate.2.2, hart, ?_⟩
  rintro ⟨b, hb, hbne⟩ d hd
  rw [hart] at hd
  cases hd
  intro hnil
  rw [List.flatten_eq_nil_iff] at hnil
  exact hbne (hnil b (List.mem_append_left _ hb))

/-- C2 witness: a paused session with one accumulated segment: the handler
delivers the assembled artifact, records no error, and the artifact is
non-empty. -/
theorem screen_ended_stops_active_session_witness :
    (screenOnEnded
        { isRecording := true, isPaused := true, elapsedTime := 4,
          error := none, chunks := [[8, 9]],
          recorder := some MRState.paused,
          resources := ⟨true, true, true, true, true, true, true⟩,
          canvas := [DrawOp.setShadow] } [[5]]).1.error = none ∧
    (screenOnEnded
        { isRecording := true, isPaused := true, elapsedTime := 4,
          error := none, chunks := [[8, 9]],
          recorder := some MRState.paused,
          resources := ⟨true, true, true, true, true, true, true⟩,
          canvas := [DrawOp.setShadow] } [[5]]).1.isRecording = false ∧
    (screenOnEnded
        { isRecording := true, isPaused := true, elapsedTime := 4,
          error := none, chunks := [[8, 9]],
          recorder := some MRState.paused,
          resources := ⟨true, true, true, true, true, true, true⟩,
          canvas := [DrawOp.setShadow] } [[5]]).1.recorder
        = some MRState.inactive ∧
    (screenOnEnded
        { isRecording := true, isPaused := true, elapsedTime := 4,
          error := none, chunks := [[8, 9]],
          recorder := some MRState.paused,
          resources := ⟨true, true, true, true, true, true, true⟩,
          canvas := [DrawOp.setShadow] } [[5]]).2
      = some { blob := [8, 9, 5], thumbnail := [DrawOp.setShadow] } ∧
    ({ blob := [8, 9, 5], thumbnail := [DrawOp.setShadow] }
        : RecordingData).blob ≠ [] := by
  have h := screen_ended_stops_active_session
    { isRecording := true, isPaused := true, elapsedTime := 4,
      error := none, chunks := [[8, 9]],
      recorder := some MRState.paused,
      resources := ⟨true, true, true, true, true, true, true⟩,
      canvas := [DrawOp.setShadow] } [[5]] MRState.paused rfl (by simp)
  refine ⟨h.1, h.2.1, h.2.2.1, h.2.2.2.1, ?_⟩
  exact h.2.2.2.2 ⟨[8, 9], by simp, by simp⟩ _ h.2.2.2.1

/-- C8 counterexample: a resize interaction does not keep the overlay box in
frame. On a 1000 by 1000 frame with `relativeSize = 0.1`, a drag can
legitimately place the overlay at `position.x = 0.9` (within the drag
clamp's bound for that size); a subsequent resize interaction grows the
size to `0.5` — inside `[0.1, 0.5]` — but leaves the position untouched, so
`position.x = 0.9` now exceeds `1 - overlayPixelSize/frameWidth = 0.5` and
the drawn box extends 400 pixels past the right edge. -/
theorem resize_escapes_frame_cex :
    (dragClamp (9 / 10) (7 / 10) 0 0 (overlayPixelSize 1000 1000 (1 / 10))
        1000 1000).x = 9 / 10 ∧
    resizeClamp (1 / 10) (2 / 5) = 1 / 2 ∧
    ¬ ((9 : ℚ) / 10
        ≤ 1 - overlayPixelSize 1000 1000 (resizeClamp (1 / 10) (2 / 5))
            / 1000) ∧
    ¬ ((9 : ℚ) / 10 * 1000
          + overlayPixelSize 1000 1000 (resizeClamp (1 / 10) (2 / 5))
        ≤ 1000) := by
  refine ⟨?_, ?_, ?_, ?_⟩ <;>
    norm_num [dragClamp, resizeClamp, overlayPixelSize]

/-- C8 (amended): a drag interaction does keep the overlay box in frame —
for every frame with positive dimensions and `relativeSize ∈ [0, 0.5]`, the
dragged position lands in `[0, 1 - overlayPixelSize/frameWidth] ×
[0, 1 - overlayPixelSize/frameHeight]` (bounds that are nonnegative), so
the drawn bounding box stays inside `[0, frameWidth] × [0, frameHeight]`
and is never clamped to negative coordinates; a resize interaction clamps
`relativeSize` to `[0.1, 0.5]` but does not re-clamp the position, so after
a resize the box may leave the frame. -/
theorem dragClamp_keeps_box_in_frame (ix iy dx dy size w h : ℚ)
    (hw : 0 < w) (hh : 0 < h) (hs0 : 0 ≤ size) (hs : size ≤ 1 / 2) :
    0 ≤ (dragClamp ix iy dx dy (overlayPixelSize w h size) w h).x ∧
    (dragClamp ix iy dx dy (overlayPixelSize w h size) w h).x
        ≤ 1 - overlayPixelSize w h size / w ∧
    0 ≤ (dragClamp ix iy dx dy (overlayPixelSize w h size) w h).y ∧
    (dragClamp ix iy dx dy (overlayPixelSize w h size) w h).y
        ≤ 1 - overlayPixelSize w h size / h ∧
    (dragClamp ix iy dx dy (overlayPixelSize w h size) w h).x * w
        + overlayPixelSize w h size ≤ w ∧
    (dragClamp ix iy dx dy (overlayPixelSize w h size) w h).y * h
        + overlayPixelSize w h size ≤ h ∧
    0 ≤ 1 - overlayPixelSize w h size / w ∧
    0 ≤ 1 - overlayPixelSize w h size / h ∧
    (∀ s0 d, 1 / 10 ≤ resizeClamp s0 d ∧ resizeClamp s0 d ≤ 1 / 2) := by
  have hpw : overlayPixelSize w h size / w ≤ size := by
    rw [overlayPixelSize, div_le_iff₀ hw]
    have hmin : min w h ≤ w := min_le_left w h
    nlinarith
  have hph : overlayPixelSize w h size / h ≤ size := by
    rw [overlayPixelSize, div_le_iff₀ hh]
    have hmin : min w h ≤ h := min_le_right w h
    nlinarith
  have hbw : 0 ≤ 1 - overlayPixelSize w h size / w := by linarith
  have hbh : 0 ≤ 1 - overlayPixelSize w h size / h := by linarith
  have hx0 : 0 ≤ (dragClamp ix iy dx dy (overlayPixelSize w h size) w h).x :=
    le_max_left 0 _
  have hy0 : 0 ≤ (dragClamp ix iy dx dy (overlayPixelSize w h size) w h).y :=
    le_max_left 0 _
  have hxb : (dragClamp ix iy dx dy (overlayPixelSize w h size) w h).x
      ≤ 1 - overlayPixelSize w h size / w :=
    max_le hbw (min_le_left _ _)
  have hyb : (dragClamp ix iy dx dy (overlayPixelSize w h size) w h).y
      ≤ 1 - overlayPixelSize w h size / h :=
    max_le hbh (min_le_left _ _)
  refine ⟨hx0, hxb, hy0, hyb, ?_, ?_, hbw, hbh, ?_⟩
  · have := mul_le_mul_of_nonneg_right hxb (le_of_lt hw)
    have hdiv : (1 - overlayPixelSize w h size / w) * w
        = w - overlayPixelSize w h size := by
      field_simp
    nlinarith
  · have := mul_le_mul_of_nonneg_right hyb (le_of_lt hh)
    have hdiv : (1 - overlayPixelSize w h size / h) * h
        = h - overlayPixelSize w h size := by
      field_simp
    nlinarith
  · intro s0 d
    exact ⟨le_max_left _ _, max_le (by norm_num) (min_le_left _ _)⟩

/-- C8 amended-claim witness: the drag bound evaluated on a 1920 by 1080
frame with a 20 percent overlay dragged far past the right edge. -/
theorem dragClamp_keeps_box_in_frame_witness :
    0 ≤ (dragClamp (1 / 20) (7 / 10) 2 0 (overlayPixelSize 1920 1080 (1 / 5))
        1920 1080).x ∧
    (dragClamp (1 / 20) (7 / 10) 2 0 (overlayPixelSize 1920 1080 (1 / 5))
        1920 1080).x ≤ 1 - overlayPixelSize 1920 1080 (1 / 5) / 1920 ∧
    0 ≤ (dragClamp (1 / 20) (7 / 10) 2 0 (overlayPixelSize 1920 1080 (1 / 5))
        1920 1080).y ∧
    (dragClamp (1 / 20) (7 / 10) 2 0 (overlayPixelSize 1920 1080 (1 / 5))
        1920 1080).y ≤ 1 - overlayPixelSize 1920 1080 (1 / 5) / 1080 ∧
    (dragClamp (1 / 20) (7 / 10) 2 0 (overlayPixelSize 1920 1080 (1 / 5))
        1920 1080).x * 1920 + overlayPixelSize 1920 1080 (1 / 5) ≤ 1920 ∧
    (dragClamp (1 / 20) (7 / 10) 2 0 (overlayPixelSize 1920 1080 (1 / 5))
        1920 1080).y * 1080 + overlayPixelSize 1920 1080 (1 / 5) ≤ 1080 ∧
    0 ≤ 1 - overlayPixelSize 1920 1080 (1 / 5) / 1920 ∧
    0 ≤ 1 - overlayPixelSize 1920 1080 (1 / 5) / 1080 ∧
    1 / 10 ≤ resizeClamp (3 / 10) (1 / 2) ∧
    resizeClamp (3 / 10) (1 / 2) ≤ 1 / 2 := by
  have h := dragClamp_keeps_box_in_frame (1 / 20) (7 / 10) 2 0 (1 / 5)
    1920 1080 (by norm_num) (by norm_num) (by norm_num) (by norm_num)
  exact ⟨h.1, h.2.1, h.2.2.1, h.2.2.2.1, h.2.2.2.2.1, h.2.2.2.2.2.1,
    h.2.2.2.2.2.2.1, h.2.2.2.2.2.2.2.1,
    (h.2.2.2.2.2.2.2.2 (3 / 10) (1 / 2)).1,
    (h.2.2.2.2.2.2.2.2 (3 / 10) (1 / 2)).2⟩

end Recordi
